import Mathlib

/-!
Shallow embedding of `lyra_i2c_keyboard.c` (Luckfox Lyra I2C keyboard/mouse
driver).  Register reads over the i2c bus are modelled by an oracle
`Bus : Nat → Nat → Option Nat`: `bus n addr` is the byte returned by the
n-th bus read when it targets register `addr` (`none` models a transport
error, i.e. a negative return from `i2c_smbus_read_byte_data`).  Every
function threads the read counter `n` explicitly, so the sequence of reads
performed by the C code is reproduced read-for-read.  Events emitted to the
input subsystem (`input_report_key`, `input_event(EV_MSC, MSC_SCAN, _)`,
`input_report_rel`, `input_sync`) are collected in a list.
-/

namespace Lyra

/-! Register addresses (`REG_*` macros). -/

def REG_KEY_STATUS : Nat := 0x00
def REG_FIFO_ACCESS : Nat := 0x01
def REG_MOUSE_X : Nat := 0x02
def REG_MOUSE_Y : Nat := 0x03
def REG_INT_STATUS : Nat := 0x04

/-! Register bit definitions. -/

def KEY_STATUS_SHIFT_BIT : Nat := 1
def KEY_STATUS_ALT_BIT : Nat := 2
def KEY_STATUS_FN_BIT : Nat := 4

def FIFO_EVENT_TYPE_MASK : Nat := 0x03
def FIFO_EVENT_NONE : Nat := 0x00
def FIFO_EVENT_PRESS : Nat := 0x01
def FIFO_EVENT_HOLD : Nat := 0x02
def FIFO_EVENT_RELEASE : Nat := 0x03
def FIFO_KEYCODE_MASK : Nat := 0xFC
def FIFO_KEYCODE_SHIFT : Nat := 2

def INT_STATUS_FIFO_OVERFLOW : Nat := 1
def INT_STATUS_SHIFT_CHANGE : Nat := 2
def INT_STATUS_FN_CHANGE : Nat := 4
def INT_STATUS_ALT_CHANGE : Nat := 8
def INT_STATUS_KEY_EVENT : Nat := 16
def INT_STATUS_MOUSE_EVENT : Nat := 32
def INT_STATUS_POWER_BTN : Nat := 64

def MAX_KEYCODES : Nat := 53
def POLL_INTERVAL_MS : Nat := 10
def FIFO_MAX_READ : Nat := 16

/-! Linux input event codes used by the keymaps
(values from include/uapi/linux/input-event-codes.h). -/

def KEY_ESC : Nat := 1
def KEY_1 : Nat := 2
def KEY_2 : Nat := 3
def KEY_3 : Nat := 4
def KEY_4 : Nat := 5
def KEY_5 : Nat := 6
def KEY_6 : Nat := 7
def KEY_7 : Nat := 8
def KEY_8 : Nat := 9
def KEY_9 : Nat := 10
def KEY_0 : Nat := 11
def KEY_MINUS : Nat := 12
def KEY_EQUAL : Nat := 13
def KEY_BACKSPACE : Nat := 14
def KEY_TAB : Nat := 15
def KEY_Q : Nat := 16
def KEY_W : Nat := 17
def KEY_E : Nat := 18
def KEY_R : Nat := 19
def KEY_T : Nat := 20
def KEY_Y : Nat := 21
def KEY_U : Nat := 22
def KEY_I : Nat := 23
def KEY_O : Nat := 24
def KEY_P : Nat := 25
def KEY_LEFTBRACE : Nat := 26
def KEY_RIGHTBRACE : Nat := 27
def KEY_ENTER : Nat := 28
def KEY_LEFTCTRL : Nat := 29
def KEY_A : Nat := 30
def KEY_S : Nat := 31
def KEY_D : Nat := 32
def KEY_F : Nat := 33
def KEY_G : Nat := 34
def KEY_H : Nat := 35
def KEY_J : Nat := 36
def KEY_K : Nat := 37
def KEY_L : Nat := 38
def KEY_SEMICOLON : Nat := 39
def KEY_APOSTROPHE : Nat := 40
def KEY_GRAVE : Nat := 41
def KEY_LEFTSHIFT : Nat := 42
def KEY_BACKSLASH : Nat := 43
def KEY_Z : Nat := 44
def KEY_X : Nat := 45
def KEY_C : Nat := 46
def KEY_V : Nat := 47
def KEY_B : Nat := 48
def KEY_N : Nat := 49
def KEY_M : Nat := 50
def KEY_COMMA : Nat := 51
def KEY_DOT : Nat := 52
def KEY_SLASH : Nat := 53
def KEY_RIGHTSHIFT : Nat := 54
def KEY_LEFTALT : Nat := 56
def KEY_SPACE : Nat := 57
def KEY_F1 : Nat := 59
def KEY_F2 : Nat := 60
def KEY_F3 : Nat := 61
def KEY_F4 : Nat := 62
def KEY_F5 : Nat := 63
def KEY_F6 : Nat := 64
def KEY_F7 : Nat := 65
def KEY_F8 : Nat := 66
def KEY_F9 : Nat := 67
def KEY_F10 : Nat := 68
def KEY_102ND : Nat := 86
def KEY_F11 : Nat := 87
def KEY_F12 : Nat := 88
def KEY_HOME : Nat := 102
def KEY_UP : Nat := 103
def KEY_LEFT : Nat := 105
def KEY_RIGHT : Nat := 106
def KEY_END : Nat := 107
def KEY_DOWN : Nat := 108
def KEY_POWER : Nat := 116
def KEY_FN : Nat := 464
def BTN_LEFT : Nat := 272
def BTN_RIGHT : Nat := 273
def BTN_MIDDLE : Nat := 274

def REL_X : Nat := 0
def REL_Y : Nat := 1

/-- Normal layer keymap (`keymap_normal[MAX_KEYCODES]`). -/
def keymap_normal : List Nat :=
  [KEY_4, KEY_5, KEY_7, KEY_6, KEY_8, KEY_9, KEY_0,
   KEY_R, KEY_T, KEY_U, KEY_Y, KEY_I, KEY_O, KEY_P,
   KEY_F, KEY_G, KEY_COMMA, KEY_H, KEY_DOT, KEY_L, KEY_ENTER,
   KEY_3, KEY_E, KEY_C, KEY_D, KEY_LEFTSHIFT, KEY_M, KEY_SPACE,
   KEY_2, KEY_ESC, KEY_LEFTALT, KEY_TAB, KEY_V, KEY_LEFTCTRL, KEY_BACKSPACE,
   KEY_1, KEY_Q, KEY_FN, KEY_Z, KEY_B, KEY_N, KEY_RIGHTSHIFT,
   KEY_W, KEY_A, KEY_S, KEY_X, KEY_J, KEY_K,
   BTN_LEFT, KEY_DOWN, KEY_UP, KEY_RIGHT, KEY_LEFT]

/-- Shift layer keymap (`keymap_shift[MAX_KEYCODES]`). -/
def keymap_shift : List Nat :=
  [KEY_4, KEY_5, KEY_7, KEY_6, KEY_8, KEY_9, KEY_0,
   KEY_R, KEY_T, KEY_U, KEY_Y, KEY_I, KEY_O, KEY_P,
   KEY_F, KEY_G, KEY_COMMA, KEY_H, KEY_DOT, KEY_L, KEY_ENTER,
   KEY_3, KEY_E, KEY_C, KEY_D, KEY_LEFTSHIFT, KEY_M, KEY_SPACE,
   KEY_2, KEY_ESC, KEY_LEFTALT, KEY_TAB, KEY_V, KEY_LEFTCTRL, KEY_BACKSPACE,
   KEY_1, KEY_Q, KEY_FN, KEY_Z, KEY_B, KEY_N, KEY_RIGHTSHIFT,
   KEY_W, KEY_A, KEY_S, KEY_X, KEY_J, KEY_K,
   BTN_RIGHT, KEY_DOWN, KEY_UP, KEY_RIGHT, KEY_LEFT]

/-- Fn layer keymap (`keymap_fn[MAX_KEYCODES]`). -/
def keymap_fn : List Nat :=
  [KEY_F4, KEY_F5, KEY_F7, KEY_F6, KEY_F8, KEY_F9, KEY_F10,
   KEY_MINUS, KEY_MINUS, KEY_EQUAL, KEY_EQUAL, KEY_BACKSLASH, KEY_F11, KEY_F12,
   KEY_APOSTROPHE, KEY_LEFTBRACE, KEY_SLASH, KEY_RIGHTBRACE, KEY_END, KEY_HOME, KEY_ENTER,
   KEY_F3, KEY_GRAVE, KEY_SEMICOLON, KEY_SEMICOLON, KEY_LEFTSHIFT, KEY_SLASH, KEY_SPACE,
   KEY_F2, KEY_ESC, KEY_LEFTALT, KEY_TAB, KEY_APOSTROPHE, KEY_LEFTCTRL, KEY_BACKSPACE,
   KEY_F1, KEY_GRAVE, KEY_FN, KEY_102ND, KEY_LEFTBRACE, KEY_RIGHTBRACE, KEY_RIGHTSHIFT,
   KEY_UP, KEY_LEFT, KEY_RIGHT, KEY_DOWN, KEY_A, KEY_B,
   BTN_MIDDLE, KEY_DOWN, KEY_UP, KEY_RIGHT, KEY_LEFT]

/-- Register bus oracle: `bus n addr` is the byte delivered by the n-th
read of the tick when it targets register `addr`; `none` is a transport
error (negative return of `i2c_smbus_read_byte_data`). -/
def Bus : Type := Nat → Nat → Option Nat

/-- Events emitted to the input subsystem.  `key`/`mscScan`/`sync` go to
the keyboard input device, `mouseRel`/`mouseSync` to the mouse device. -/
inductive Event : Type where
  | key : Nat → Bool → Event
  | mscScan : Nat → Event
  | sync : Event
  | mouseRel : Nat → Int → Event
  | mouseSync : Event
deriving DecidableEq, Repr

/-- Mutable driver state (`struct lyra_kbd_data`, the fields the core
logic touches).  The C array `unsigned short last_key_pressed[53]` is
modelled as a total function from keycode to recorded Linux key code
(0 = no key recorded, as left by `devm_kzalloc`). -/
structure KbdState : Type where
  last_key_pressed : Nat → Nat
  mouse_speed_x : Int
  mouse_speed_y : Int
  power_btn_pressed : Bool
  poll_interval_ms : Nat

/-- Initial state established by `lyra_kbd_probe` (zeroed allocation,
speed 100 on both axes, `POLL_INTERVAL_MS` polling). -/
def lyra_kbd_init : KbdState :=
  { last_key_pressed := fun _ => 0
    mouse_speed_x := 100
    mouse_speed_y := 100
    power_btn_pressed := false
    poll_interval_ms := POLL_INTERVAL_MS }

/-- Layer selection performed in `lyra_kbd_process_key_event` (both in
the press branch and in the empty-record release fallback):
`if (fn) key = keymap_fn[keycode]; else if (shift) ...; else ...`. -/
def select_keymap (shift fn : Bool) (keycode : Nat) : Nat :=
  if fn then keymap_fn.getD keycode 0
  else if shift then keymap_shift.getD keycode 0
  else keymap_normal.getD keycode 0

/-- Result of `lyra_kbd_process_key_event`: updated state, emitted
events, and the bus read counter after the call. -/
structure KeyEvResult : Type where
  st : KbdState
  events : List Event
  busN : Nat

/-- Embedding of `lyra_kbd_process_key_event(kbd, keycode, pressed)`.
Order of operations follows the C exactly: bounds check, fresh read of
`REG_KEY_STATUS` (failure aborts with no effect), modifier-position
early returns, then the press branch (resolve layer, record in
`last_key_pressed`, emit MSC_SCAN + key press + sync) or the release
branch (use the recorded key, falling back to current modifiers when the
record is 0, emit MSC_SCAN + key release + sync, clear the record). -/
def lyra_kbd_process_key_event (bus : Bus) (n : Nat) (st : KbdState)
    (keycode : Nat) (pressed : Bool) : KeyEvResult :=
  if MAX_KEYCODES ≤ keycode then ⟨st, [], n⟩
  else
    match bus n REG_KEY_STATUS with
    | none => ⟨st, [], n + 1⟩
    | some key_status =>
      let shift : Bool := key_status &&& KEY_STATUS_SHIFT_BIT != 0
      let fn : Bool := key_status &&& KEY_STATUS_FN_BIT != 0
      if keycode = 25 ∨ keycode = 41 then ⟨st, [], n + 1⟩
      else if keycode = 30 then ⟨st, [], n + 1⟩
      else if keycode = 33 then
        ⟨st, [Event.key KEY_LEFTCTRL pressed, Event.sync], n + 1⟩
      else if keycode = 37 then ⟨st, [], n + 1⟩
      else if pressed then
        let key := select_keymap shift fn keycode
        ⟨{ st with last_key_pressed := Function.update st.last_key_pressed keycode key },
         [Event.mscScan keycode, Event.key key true, Event.sync], n + 1⟩
      else
        let recorded := st.last_key_pressed keycode
        let key := if recorded = 0 then select_keymap shift fn keycode else recorded
        ⟨{ st with last_key_pressed := Function.update st.last_key_pressed keycode 0 },
         [Event.mscScan keycode, Event.key key false, Event.sync], n + 1⟩


/-- Result of `lyra_kbd_process_fifo`: updated state, emitted events,
bus read counter after the call, and the number of reads of
`REG_FIFO_ACCESS` that were performed. -/
structure FifoResult : Type where
  st : KbdState
  events : List Event
  busN : Nat
  reads : Nat

/-- Body of the drain loop `while (i < FIFO_MAX_READ)` of
`lyra_kbd_process_fifo`, with `fuel = FIFO_MAX_READ - i` remaining
iterations.  Each iteration performs one read of `REG_FIFO_ACCESS`;
a failed read returns immediately, a None entry breaks out of the
loop, Press/Release entries are routed to
`lyra_kbd_process_key_event`, Hold and unknown entries are dropped
(`goto next`), and the loop continues. -/
def lyra_kbd_process_fifo_aux (bus : Bus) : Nat → Nat → KbdState → FifoResult
  | 0, n, st => ⟨st, [], n, 0⟩
  | fuel + 1, n, st =>
    match bus n REG_FIFO_ACCESS with
    | none => ⟨st, [], n + 1, 1⟩
    | some fifo_data =>
      let event_type := fifo_data &&& FIFO_EVENT_TYPE_MASK
      let keycode := (fifo_data &&& FIFO_KEYCODE_MASK) >>> FIFO_KEYCODE_SHIFT
      if event_type = FIFO_EVENT_NONE then ⟨st, [], n + 1, 1⟩
      else if event_type = FIFO_EVENT_PRESS ∨ event_type = FIFO_EVENT_RELEASE then
        let r := lyra_kbd_process_key_event bus (n + 1) st keycode
                   (event_type = FIFO_EVENT_PRESS)
        let rest := lyra_kbd_process_fifo_aux bus fuel r.busN r.st
        ⟨rest.st, r.events ++ rest.events, rest.busN, rest.reads + 1⟩
      else
        let rest := lyra_kbd_process_fifo_aux bus fuel (n + 1) st
        ⟨rest.st, rest.events, rest.busN, rest.reads + 1⟩

/-- Embedding of `lyra_kbd_process_fifo(kbd)`: run the drain loop with
`i` starting at 0, i.e. `FIFO_MAX_READ` iterations of fuel. -/
def lyra_kbd_process_fifo (bus : Bus) (n : Nat) (st : KbdState) : FifoResult :=
  lyra_kbd_process_fifo_aux bus FIFO_MAX_READ n st

/-- Two's-complement reading of a byte as the C cast `(s8)ret`. -/
def s8 (b : Nat) : Int :=
  if b % 256 < 128 then ((b % 256 : Nat) : Int) else ((b % 256 : Nat) : Int) - 256

/-- Speed scaling applied per axis in `lyra_kbd_process_mouse`:
`adjusted = ((s32)delta * speed) / 100` with C `s32` division
(truncation toward zero, `Int.tdiv`), then
`if (adjusted == 0 && delta != 0) adjusted = (delta > 0) ? 1 : -1`. -/
def mouse_scale (delta speed : Int) : Int :=
  let adjusted := Int.tdiv (delta * speed) 100
  if adjusted = 0 ∧ delta ≠ 0 then (if 0 < delta then 1 else -1) else adjusted

/-- Embedding of `lyra_kbd_process_mouse(kbd)`: read the X delta (failure
aborts), read the Y delta (failure aborts), emit a REL_X event for a
non-zero X delta, a REL_Y event for a non-zero Y delta, and one sync when
either axis moved.  Returns the events and the bus counter. -/
def lyra_kbd_process_mouse (bus : Bus) (n : Nat) (st : KbdState) :
    List Event × Nat :=
  match bus n REG_MOUSE_X with
  | none => ([], n + 1)
  | some bx =>
    match bus (n + 1) REG_MOUSE_Y with
    | none => ([], n + 2)
    | some byv =>
      let delta_x := s8 bx
      let delta_y := s8 byv
      ((if delta_x ≠ 0 then [Event.mouseRel REL_X (mouse_scale delta_x st.mouse_speed_x)] else [])
        ++ (if delta_y ≠ 0 then [Event.mouseRel REL_Y (mouse_scale delta_y st.mouse_speed_y)] else [])
        ++ (if delta_x ≠ 0 ∨ delta_y ≠ 0 then [Event.mouseSync] else []),
       n + 2)

/-- Embedding of `lyra_kbd_process_power_button(kbd, pressed)`: if the
requested state differs from the stored one, store it and emit a
KEY_POWER event at the new state plus a sync. -/
def lyra_kbd_process_power_button (st : KbdState) (pressed : Bool) :
    KbdState × List Event :=
  if st.power_btn_pressed ≠ pressed then
    ({ st with power_btn_pressed := pressed },
     [Event.key KEY_POWER pressed, Event.sync])
  else (st, [])

/-- Embedding of `lyra_kbd_sync_modifiers(kbd)`: read `REG_KEY_STATUS`
(failure aborts), then report the shift and alt bits as
KEY_LEFTSHIFT / KEY_LEFTALT states followed by a sync. -/
def lyra_kbd_sync_modifiers (bus : Bus) (n : Nat) (st : KbdState) :
    List Event × Nat :=
  match bus n REG_KEY_STATUS with
  | none => ([], n + 1)
  | some key_status =>
    ([Event.key KEY_LEFTSHIFT (key_status &&& KEY_STATUS_SHIFT_BIT != 0),
      Event.key KEY_LEFTALT (key_status &&& KEY_STATUS_ALT_BIT != 0),
      Event.sync], n + 1)

/-- Result of one scheduler tick `lyra_kbd_poll_work`: state after the
tick, events emitted during the tick, bus counter, and the delay in
milliseconds passed to `schedule_delayed_work` for the next tick. -/
structure TickResult : Type where
  st : KbdState
  events : List Event
  busN : Nat
  nextDelayMs : Nat

/-- Embedding of `lyra_kbd_poll_work(work)`: read `REG_INT_STATUS`; on
failure jump straight to reschedule (no processing); otherwise run, in
order and gated by the interrupt-status bits: modifier sync, FIFO drain,
mouse processing, power-button toggle (requesting the negation of the
stored state).  The next tick is always scheduled with the configured
`poll_interval_ms`. -/
def lyra_kbd_poll_work (bus : Bus) (n : Nat) (st : KbdState) : TickResult :=
  match bus n REG_INT_STATUS with
  | none => ⟨st, [], n + 1, st.poll_interval_ms⟩
  | some int_status =>
    let p1 := if int_status &&& (INT_STATUS_SHIFT_CHANGE ||| INT_STATUS_ALT_CHANGE ||| INT_STATUS_FN_CHANGE) != 0
              then lyra_kbd_sync_modifiers bus (n + 1) st
              else ([], n + 1)
    let p2 := if int_status &&& INT_STATUS_KEY_EVENT != 0
              then lyra_kbd_process_fifo bus p1.2 st
              else ⟨st, [], p1.2, 0⟩
    let p3 := if int_status &&& INT_STATUS_MOUSE_EVENT != 0
              then lyra_kbd_process_mouse bus p2.busN p2.st
              else ([], p2.busN)
    let p4 := if int_status &&& INT_STATUS_POWER_BTN != 0
              then lyra_kbd_process_power_button p2.st (!p2.st.power_btn_pressed)
              else (p2.st, [])
    ⟨p4.1, p1.1 ++ p2.events ++ p3.1 ++ p4.2, p3.2, p4.1.poll_interval_ms⟩

/-! Configuration (sysfs) stores.  Parsing by `kstrtoint`/`kstrtouint` is
external kernel code; its outcome is modelled as an `Option` argument
(`none` = parse failure).  The return value is the C ssize_t: `-EINVAL`
on rejection, `count` on success. -/

def EINVAL : Int := 22

/-- Embedding of `mouse_speed_x_store`: reject a parse failure or a value
outside [10, 500] with `-EINVAL` and no state change; otherwise store the
value and return `count`. -/
def mouse_speed_x_store (st : KbdState) (parsed : Option Int) (count : Nat) :
    KbdState × Int :=
  match parsed with
  | none => (st, -EINVAL)
  | some val =>
    if val < 10 ∨ 500 < val then (st, -EINVAL)
    else ({ st with mouse_speed_x := val }, (count : Int))

/-- Embedding of `mouse_speed_y_store` (same validation as X). -/
def mouse_speed_y_store (st : KbdState) (parsed : Option Int) (count : Nat) :
    KbdState × Int :=
  match parsed with
  | none => (st, -EINVAL)
  | some val =>
    if val < 10 ∨ 500 < val then (st, -EINVAL)
    else ({ st with mouse_speed_y := val }, (count : Int))

/-- Embedding of `poll_interval_store`: unsigned parse, range [5, 100]. -/
def poll_interval_store (st : KbdState) (parsed : Option Nat) (count : Nat) :
    KbdState × Int :=
  match parsed with
  | none => (st, -EINVAL)
  | some val =>
    if val < 5 ∨ 100 < val then (st, -EINVAL)
    else ({ st with poll_interval_ms := val }, (count : Int))




/-- Bus oracle on which every read succeeds and returns the byte `v`. -/
def constBus (v : Nat) : Bus := fun _ _ => some v

/-- Bus oracle on which every read fails. -/
def failBus : Bus := fun _ _ => none

/-- Bus oracle on which reads of register `addr` return `v` and every
other read returns 0. -/
def regBus (addr v : Nat) : Bus := fun _ a => if a = addr then some v else some 0

/-- Bus oracle on which FIFO reads return the entry `v` and every other
read (in particular the key-status read) fails. -/
def fifoOnlyBus (v : Nat) : Bus :=
  fun _ a => if a = REG_FIFO_ACCESS then some v else none

/-! Helper lemmas shared by the claim theorems. -/

lemma select_keymap_ne_zero :
    ∀ (shift fn : Bool) (k : Nat), k < MAX_KEYCODES → select_keymap shift fn k ≠ 0 := by
  decide

lemma process_key_event_power (bus : Bus) (n : Nat) (st : KbdState) (k : Nat) (p : Bool) :
    (lyra_kbd_process_key_event bus n st k p).st.power_btn_pressed = st.power_btn_pressed := by
  unfold lyra_kbd_process_key_event
  repeat' split
  all_goals rfl

lemma process_key_event_interval (bus : Bus) (n : Nat) (st : KbdState) (k : Nat) (p : Bool) :
    (lyra_kbd_process_key_event bus n st k p).st.poll_interval_ms = st.poll_interval_ms := by
  unfold lyra_kbd_process_key_event
  repeat' split
  all_goals rfl

lemma process_fifo_aux_power (bus : Bus) (fuel : Nat) :
    ∀ (n : Nat) (st : KbdState),
      (lyra_kbd_process_fifo_aux bus fuel n st).st.power_btn_pressed = st.power_btn_pressed := by
  induction fuel with
  | zero => intro n st; rfl
  | succ fuel ih =>
    intro n st
    unfold lyra_kbd_process_fifo_aux
    cases h : bus n REG_FIFO_ACCESS with
    | none => rfl
    | some v =>
      dsimp only
      split
      · rfl
      · split
        · rw [ih, process_key_event_power]
        · exact ih _ _

lemma process_fifo_aux_interval (bus : Bus) (fuel : Nat) :
    ∀ (n : Nat) (st : KbdState),
      (lyra_kbd_process_fifo_aux bus fuel n st).st.poll_interval_ms = st.poll_interval_ms := by
  induction fuel with
  | zero => intro n st; rfl
  | succ fuel ih =>
    intro n st
    unfold lyra_kbd_process_fifo_aux
    cases h : bus n REG_FIFO_ACCESS with
    | none => rfl
    | some v =>
      dsimp only
      split
      · rfl
      · split
        · rw [ih, process_key_event_interval]
        · exact ih _ _

lemma process_key_event_press (bus : Bus) (n : Nat) (st : KbdState) (k m : Nat)
    (hk : k < MAX_KEYCODES) (h25 : k ≠ 25) (h41 : k ≠ 41) (h30 : k ≠ 30)
    (h33 : k ≠ 33) (h37 : k ≠ 37) (hb : bus n REG_KEY_STATUS = some m) :
    lyra_kbd_process_key_event bus n st k true =
      ⟨{ st with last_key_pressed := (Function.update st.last_key_pressed k
           (select_keymap (m &&& KEY_STATUS_SHIFT_BIT != 0) (m &&& KEY_STATUS_FN_BIT != 0) k)) },
       [Event.mscScan k,
        Event.key (select_keymap (m &&& KEY_STATUS_SHIFT_BIT != 0) (m &&& KEY_STATUS_FN_BIT != 0) k) true,
        Event.sync], n + 1⟩ := by
  unfold lyra_kbd_process_key_event
  rw [hb]
  simp [Nat.not_le.mpr hk, h25, h41, h30, h33, h37]

lemma process_key_event_release (bus : Bus) (n : Nat) (st : KbdState) (k m : Nat)
    (hk : k < MAX_KEYCODES) (h25 : k ≠ 25) (h41 : k ≠ 41) (h30 : k ≠ 30)
    (h33 : k ≠ 33) (h37 : k ≠ 37) (hb : bus n REG_KEY_STATUS = some m) :
    lyra_kbd_process_key_event bus n st k false =
      ⟨{ st with last_key_pressed := Function.update st.last_key_pressed k 0 },
       [Event.mscScan k,
        Event.key (if st.last_key_pressed k = 0
                   then select_keymap (m &&& KEY_STATUS_SHIFT_BIT != 0) (m &&& KEY_STATUS_FN_BIT != 0) k
                   else st.last_key_pressed k) false,
        Event.sync], n + 1⟩ := by
  unfold lyra_kbd_process_key_event
  rw [hb]
  simp [Nat.not_le.mpr hk, h25, h41, h30, h33, h37]

/-- Claim C9: every entry of the three keymap layers is a non-zero Linux
key code, so the 0 value used by `last_key_pressed` as the empty marker
can never collide with a recorded logical key; consequently a press of a
non-excluded in-range keycode always leaves a non-zero record, making
the release path's `key == 0` test a sound emptiness check. -/
theorem keymap_nonzero :
    (∀ k : Nat, k < MAX_KEYCODES →
      keymap_normal.getD k 0 ≠ 0 ∧ keymap_shift.getD k 0 ≠ 0 ∧ keymap_fn.getD k 0 ≠ 0)
    ∧ (∀ (shift fn : Bool) (k : Nat), k < MAX_KEYCODES → select_keymap shift fn k ≠ 0)
    ∧ (∀ (bus : Bus) (n : Nat) (st : KbdState) (k m : Nat),
        k < MAX_KEYCODES → k ≠ 25 → k ≠ 41 → k ≠ 30 → k ≠ 33 → k ≠ 37 →
        bus n REG_KEY_STATUS = some m →
        (lyra_kbd_process_key_event bus n st k true).st.last_key_pressed k ≠ 0) := by
  refine ⟨by decide, select_keymap_ne_zero, ?_⟩
  intro bus n st k m hk h25 h41 h30 h33 h37 hb
  rw [process_key_event_press bus n st k m hk h25 h41 h30 h33 h37 hb]
  simpa [Function.update_same] using
    select_keymap_ne_zero (m &&& KEY_STATUS_SHIFT_BIT != 0) (m &&& KEY_STATUS_FN_BIT != 0) k hk

/-- Witness for C9 at concrete inputs: keycode 5 under all-modifiers-off
status byte 0 records `keymap_normal[5] = KEY_9 ≠ 0`. -/
theorem keymap_nonzero_witness :
    keymap_normal.getD 5 0 ≠ 0
    ∧ select_keymap false false 5 ≠ 0
    ∧ (lyra_kbd_process_key_event (constBus 0) 0 lyra_kbd_init 5 true).st.last_key_pressed 5 ≠ 0 :=
  ⟨(keymap_nonzero.1 5 (by decide)).1,
   keymap_nonzero.2.1 false false 5 (by decide),
   keymap_nonzero.2.2 (constBus 0) 0 lyra_kbd_init 5 0 (by decide) (by decide) (by decide)
     (by decide) (by decide) (by decide) rfl⟩

/-- Claim C2: a press of an in-range keycode outside the
modifier-exclusion set resolves through the layer selected with priority
fn > shift > normal on the freshly read status byte: with the fn bit set
the fn layer wins (even when shift is also set), with fn clear and shift
set the shift layer is used, and with both clear the normal layer. -/
theorem layer_priority (bus : Bus) (n : Nat) (st : KbdState) (k m : Nat)
    (hk : k < MAX_KEYCODES) (h25 : k ≠ 25) (h41 : k ≠ 41) (h30 : k ≠ 30)
    (h33 : k ≠ 33) (h37 : k ≠ 37) (hb : bus n REG_KEY_STATUS = some m) :
    (lyra_kbd_process_key_event bus n st k true).events =
      [Event.mscScan k,
       Event.key (select_keymap (m &&& KEY_STATUS_SHIFT_BIT != 0) (m &&& KEY_STATUS_FN_BIT != 0) k) true,
       Event.sync]
    ∧ (m &&& KEY_STATUS_FN_BIT ≠ 0 →
        select_keymap (m &&& KEY_STATUS_SHIFT_BIT != 0) (m &&& KEY_STATUS_FN_BIT != 0) k =
          keymap_fn.getD k 0)
    ∧ (m &&& KEY_STATUS_FN_BIT = 0 → m &&& KEY_STATUS_SHIFT_BIT ≠ 0 →
        select_keymap (m &&& KEY_STATUS_SHIFT_BIT != 0) (m &&& KEY_STATUS_FN_BIT != 0) k =
          keymap_shift.getD k 0)
    ∧ (m &&& KEY_STATUS_FN_BIT = 0 → m &&& KEY_STATUS_SHIFT_BIT = 0 →
        select_keymap (m &&& KEY_STATUS_SHIFT_BIT != 0) (m &&& KEY_STATUS_FN_BIT != 0) k =
          keymap_normal.getD k 0) := by
  refine ⟨?_, ?_, ?_, ?_⟩
  · rw [process_key_event_press bus n st k m hk h25 h41 h30 h33 h37 hb]
  · intro hfn
    simp [select_keymap, bne_iff_ne, hfn]
  · intro hfn hshift
    simp [select_keymap, bne_iff_ne, hfn, hshift]
  · intro hfn hshift
    simp [select_keymap, bne_iff_ne, hfn, hshift]

/-- Witness for C2 at concrete inputs: keycode 0 pressed under status
byte 5 (shift and fn both set) emits the fn-layer key `keymap_fn[0]`. -/
theorem layer_priority_witness :
    (lyra_kbd_process_key_event (constBus 5) 0 lyra_kbd_init 0 true).events =
      [Event.mscScan 0,
       Event.key (select_keymap ((5 : Nat) &&& KEY_STATUS_SHIFT_BIT != 0) ((5 : Nat) &&& KEY_STATUS_FN_BIT != 0) 0) true,
       Event.sync]
    ∧ select_keymap ((5 : Nat) &&& KEY_STATUS_SHIFT_BIT != 0) ((5 : Nat) &&& KEY_STATUS_FN_BIT != 0) 0 =
        keymap_fn.getD 0 0 :=
  ⟨(layer_priority (constBus 5) 0 lyra_kbd_init 0 5 (by decide) (by decide) (by decide)
      (by decide) (by decide) (by decide) rfl).1,
   (layer_priority (constBus 5) 0 lyra_kbd_init 0 5 (by decide) (by decide) (by decide)
      (by decide) (by decide) (by decide) rfl).2.1 (by decide)⟩

/-- Claim C1: press/release symmetry.  A press of a non-excluded
in-range keycode under status byte `m1` records the resolved logical
key; the matching release, performed under an arbitrary (possibly
different) status byte `m2`, emits exactly the logical key recorded at
press time — the layer selection uses `m1`, not `m2` — and clears the
record. -/
theorem press_release_symmetry (bus1 bus2 : Bus) (n1 n2 : Nat) (st : KbdState) (k m1 m2 : Nat)
    (hk : k < MAX_KEYCODES) (h25 : k ≠ 25) (h41 : k ≠ 41) (h30 : k ≠ 30)
    (h33 : k ≠ 33) (h37 : k ≠ 37)
    (hb1 : bus1 n1 REG_KEY_STATUS = some m1) (hb2 : bus2 n2 REG_KEY_STATUS = some m2) :
    (lyra_kbd_process_key_event bus2 n2
        (lyra_kbd_process_key_event bus1 n1 st k true).st k false).events =
      [Event.mscScan k,
       Event.key (select_keymap (m1 &&& KEY_STATUS_SHIFT_BIT != 0) (m1 &&& KEY_STATUS_FN_BIT != 0) k) false,
       Event.sync]
    ∧ (lyra_kbd_process_key_event bus2 n2
        (lyra_kbd_process_key_event bus1 n1 st k true).st k false).st.last_key_pressed k = 0 := by
  rw [process_key_event_press bus1 n1 st k m1 hk h25 h41 h30 h33 h37 hb1]
  rw [process_key_event_release bus2 n2 _ k m2 hk h25 h41 h30 h33 h37 hb2]
  constructor
  · simp [Function.update_same,
      select_keymap_ne_zero (m1 &&& KEY_STATUS_SHIFT_BIT != 0) (m1 &&& KEY_STATUS_FN_BIT != 0) k hk]
  · simp [Function.update_same]

/-- Witness for C1 at concrete inputs (the spec's regression scenario):
keycode 5 pressed with shift off (status byte 0), released after the
status byte changed to 1 (shift on); the release still emits the
normal-layer key `select_keymap false false 5 = KEY_9`. -/
theorem press_release_symmetry_witness :
    (lyra_kbd_process_key_event (constBus 1) 0
        (lyra_kbd_process_key_event (constBus 0) 0 lyra_kbd_init 5 true).st 5 false).events =
      [Event.mscScan 5,
       Event.key (select_keymap ((0 : Nat) &&& KEY_STATUS_SHIFT_BIT != 0) ((0 : Nat) &&& KEY_STATUS_FN_BIT != 0) 5) false,
       Event.sync]
    ∧ (lyra_kbd_process_key_event (constBus 1) 0
        (lyra_kbd_process_key_event (constBus 0) 0 lyra_kbd_init 5 true).st 5 false).st.last_key_pressed 5 = 0 :=
  press_release_symmetry (constBus 0) (constBus 1) 0 0 lyra_kbd_init 5 0 1
    (by decide) (by decide) (by decide) (by decide) (by decide) (by decide) rfl rfl

lemma process_fifo_aux_reads_le (bus : Bus) (fuel : Nat) :
    ∀ (n : Nat) (st : KbdState), (lyra_kbd_process_fifo_aux bus fuel n st).reads ≤ fuel := by
  induction fuel with
  | zero => intro n st; exact Nat.le_refl 0
  | succ fuel ih =>
    intro n st
    unfold lyra_kbd_process_fifo_aux
    cases h : bus n REG_FIFO_ACCESS with
    | none => exact Nat.succ_le_succ (Nat.zero_le fuel)
    | some v =>
      dsimp only
      split
      · exact Nat.succ_le_succ (Nat.zero_le fuel)
      · split
        · exact Nat.succ_le_succ (ih _ _)
        · exact Nat.succ_le_succ (ih _ _)

lemma process_fifo_aux_reads_eq (bus : Bus)
    (hbus : ∀ m : Nat, ∃ v, bus m REG_FIFO_ACCESS = some v ∧
              v &&& FIFO_EVENT_TYPE_MASK ≠ FIFO_EVENT_NONE) (fuel : Nat) :
    ∀ (n : Nat) (st : KbdState), (lyra_kbd_process_fifo_aux bus fuel n st).reads = fuel := by
  induction fuel with
  | zero => intro n st; rfl
  | succ fuel ih =>
    intro n st
    obtain ⟨v, hv, hne⟩ := hbus n
    unfold lyra_kbd_process_fifo_aux
    rw [hv]
    dsimp only
    rw [if_neg hne]
    split
    · rw [ih]
    · rw [ih]

/-- Claim C3: the FIFO drain loop of one tick performs at most
`FIFO_MAX_READ = 16` reads of the queue-entry register; on a bus whose
queue-entry register always delivers an entry that does not decode to
event type None, exactly 16 reads (hence at most 16 processed entries)
happen before the loop stops. -/
theorem fifo_drain_bound (bus : Bus) (n : Nat) (st : KbdState) :
    (lyra_kbd_process_fifo bus n st).reads ≤ FIFO_MAX_READ
    ∧ ((∀ m : Nat, ∃ v, bus m REG_FIFO_ACCESS = some v ∧
          v &&& FIFO_EVENT_TYPE_MASK ≠ FIFO_EVENT_NONE) →
        (lyra_kbd_process_fifo bus n st).reads = FIFO_MAX_READ) :=
  ⟨process_fifo_aux_reads_le bus FIFO_MAX_READ n st,
   fun hbus => process_fifo_aux_reads_eq bus hbus FIFO_MAX_READ n st⟩

/-- Witness for C3: on a bus whose FIFO register always returns the
press entry 0x05, the tick performs exactly 16 FIFO reads. -/
theorem fifo_drain_bound_witness :
    (lyra_kbd_process_fifo (regBus REG_FIFO_ACCESS 5) 0 lyra_kbd_init).reads ≤ FIFO_MAX_READ
    ∧ (lyra_kbd_process_fifo (regBus REG_FIFO_ACCESS 5) 0 lyra_kbd_init).reads = FIFO_MAX_READ :=
  ⟨(fifo_drain_bound (regBus REG_FIFO_ACCESS 5) 0 lyra_kbd_init).1,
   (fifo_drain_bound (regBus REG_FIFO_ACCESS 5) 0 lyra_kbd_init).2
     (fun _ => ⟨5, rfl, by decide⟩)⟩

/-- Claim C7: a FIFO entry decoding to event type Hold (low 2 bits = 10)
is inert: the drain loop leaves `last_key_pressed` untouched, emits no
event for it, and simply continues with the next entry — the loop result
is that of the remaining iterations, with only the read count bumped. -/
theorem hold_inert (bus : Bus) (fuel n : Nat) (st : KbdState) (v : Nat)
    (hv : bus n REG_FIFO_ACCESS = some v)
    (ht : v &&& FIFO_EVENT_TYPE_MASK = FIFO_EVENT_HOLD) :
    lyra_kbd_process_fifo_aux bus (fuel + 1) n st =
      ⟨(lyra_kbd_process_fifo_aux bus fuel (n + 1) st).st,
       (lyra_kbd_process_fifo_aux bus fuel (n + 1) st).events,
       (lyra_kbd_process_fifo_aux bus fuel (n + 1) st).busN,
       (lyra_kbd_process_fifo_aux bus fuel (n + 1) st).reads + 1⟩ := by
  conv_lhs => unfold lyra_kbd_process_fifo_aux
  rw [hv]
  dsimp only
  rw [if_neg (by rw [ht]; decide), if_neg (by rw [ht]; decide)]

/-- Witness for C7: a hold entry 0x06 (type 10, keycode 1) with one
iteration of fuel left changes nothing and only counts its read. -/
theorem hold_inert_witness :
    lyra_kbd_process_fifo_aux (constBus 6) 1 0 lyra_kbd_init =
      ⟨(lyra_kbd_process_fifo_aux (constBus 6) 0 1 lyra_kbd_init).st,
       (lyra_kbd_process_fifo_aux (constBus 6) 0 1 lyra_kbd_init).events,
       (lyra_kbd_process_fifo_aux (constBus 6) 0 1 lyra_kbd_init).busN,
       (lyra_kbd_process_fifo_aux (constBus 6) 0 1 lyra_kbd_init).reads + 1⟩ :=
  hold_inert (constBus 6) 0 0 lyra_kbd_init 6 rfl (by decide)

/-- Claim C10: a transport error on the fresh key-status read inside
per-key-event processing drops that single press or release: no event is
emitted and `last_key_pressed` is untouched; the FIFO drain loop is not
aborted and continues with the subsequent entries. -/
theorem transport_error_drop (bus : Bus) (n fuel : Nat) (st : KbdState)
    (k : Nat) (p : Bool) (v : Nat) :
    (bus n REG_KEY_STATUS = none → k < MAX_KEYCODES →
      lyra_kbd_process_key_event bus n st k p = ⟨st, [], n + 1⟩)
    ∧ (bus n REG_FIFO_ACCESS = some v →
        v &&& FIFO_EVENT_TYPE_MASK = FIFO_EVENT_PRESS ∨
          v &&& FIFO_EVENT_TYPE_MASK = FIFO_EVENT_RELEASE →
        bus (n + 1) REG_KEY_STATUS = none →
        (v &&& FIFO_KEYCODE_MASK) >>> FIFO_KEYCODE_SHIFT < MAX_KEYCODES →
        lyra_kbd_process_fifo_aux bus (fuel + 1) n st =
          ⟨(lyra_kbd_process_fifo_aux bus fuel (n + 2) st).st,
           (lyra_kbd_process_fifo_aux bus fuel (n + 2) st).events,
           (lyra_kbd_process_fifo_aux bus fuel (n + 2) st).busN,
           (lyra_kbd_process_fifo_aux bus fuel (n + 2) st).reads + 1⟩) := by
  have hkey : ∀ (n' : Nat) (k' : Nat) (p' : Bool), bus n' REG_KEY_STATUS = none →
      k' < MAX_KEYCODES → lyra_kbd_process_key_event bus n' st k' p' = ⟨st, [], n' + 1⟩ := by
    intro n' k' p' hb hk
    unfold lyra_kbd_process_key_event
    rw [if_neg (Nat.not_le.mpr hk), hb]
  refine ⟨hkey n k p, ?_⟩
  intro hv htype hb hk
  conv_lhs => unfold lyra_kbd_process_fifo_aux
  rw [hv]
  dsimp only
  rw [if_neg (by rcases htype with h | h <;> rw [h] <;> decide), if_pos htype]
  rw [hkey (n + 1) _ _ hb hk]
  rfl

/-- Witness for C10: on a bus where FIFO reads deliver the press entry
0x05 (keycode 1) and every key-status read fails, the key event is
dropped with no effect and the drain loop continues. -/
theorem transport_error_drop_witness :
    lyra_kbd_process_key_event (fifoOnlyBus 5) 0 lyra_kbd_init 3 true = ⟨lyra_kbd_init, [], 1⟩
    ∧ lyra_kbd_process_fifo_aux (fifoOnlyBus 5) 1 0 lyra_kbd_init =
        ⟨(lyra_kbd_process_fifo_aux (fifoOnlyBus 5) 0 2 lyra_kbd_init).st,
         (lyra_kbd_process_fifo_aux (fifoOnlyBus 5) 0 2 lyra_kbd_init).events,
         (lyra_kbd_process_fifo_aux (fifoOnlyBus 5) 0 2 lyra_kbd_init).busN,
         (lyra_kbd_process_fifo_aux (fifoOnlyBus 5) 0 2 lyra_kbd_init).reads + 1⟩ :=
  ⟨(transport_error_drop (fifoOnlyBus 5) 0 0 lyra_kbd_init 3 true 5).1 rfl (by decide),
   (transport_error_drop (fifoOnlyBus 5) 0 0 lyra_kbd_init 3 true 5).2 rfl
     (by decide) rfl (by decide)⟩

/-- Claim C4: for a non-zero signed-byte delta the emitted relative
motion is `(delta * speed) / 100` with truncation toward zero, forced to
`sign(delta)` when that quotient is 0 (never 0); a zero delta on an axis
emits no relative-motion event for that axis. -/
theorem mouse_scaling (bus : Bus) (n : Nat) (st : KbdState) (bx byv : Nat)
    (hx : bus n REG_MOUSE_X = some bx) (hy : bus (n + 1) REG_MOUSE_Y = some byv)
    (hsx1 : 10 ≤ st.mouse_speed_x) (hsx2 : st.mouse_speed_x ≤ 500)
    (hsy1 : 10 ≤ st.mouse_speed_y) (hsy2 : st.mouse_speed_y ≤ 500) :
    (lyra_kbd_process_mouse bus n st).1 =
      (if s8 bx ≠ 0 then [Event.mouseRel REL_X (mouse_scale (s8 bx) st.mouse_speed_x)] else [])
        ++ (if s8 byv ≠ 0 then [Event.mouseRel REL_Y (mouse_scale (s8 byv) st.mouse_speed_y)] else [])
        ++ (if s8 bx ≠ 0 ∨ s8 byv ≠ 0 then [Event.mouseSync] else [])
    ∧ (∀ d s : Int, d ≠ 0 →
        mouse_scale d s =
          (if Int.tdiv (d * s) 100 = 0 then Int.sign d else Int.tdiv (d * s) 100)
        ∧ mouse_scale d s ≠ 0) := by
  constructor
  · unfold lyra_kbd_process_mouse
    rw [hx, hy]
  · intro d s hd
    constructor
    · unfold mouse_scale
      dsimp only
      by_cases h : Int.tdiv (d * s) 100 = 0
      · rw [if_pos ⟨h, hd⟩, if_pos h]
        rcases lt_trichotomy d 0 with hlt | heq | hgt
        · rw [if_neg (by omega), Int.sign_eq_neg_one_of_neg hlt]
        · exact absurd heq hd
        · rw [if_pos hgt, Int.sign_eq_one_of_pos hgt]
      · rw [if_neg (fun hc => h hc.1), if_neg h]
    · unfold mouse_scale
      dsimp only
      by_cases h : Int.tdiv (d * s) 100 = 0
      · rw [if_pos ⟨h, hd⟩]
        split <;> decide
      · rw [if_neg (fun hc => h hc.1)]
        exact h

/-- Witness for C4 at the spec's concrete inputs: delta 1 at speed 10%
truncates to 0 and is forced to `sign 1 = 1`, never 0. -/
theorem mouse_scaling_witness :
    mouse_scale 1 10 =
      (if Int.tdiv ((1 : Int) * 10) 100 = 0 then Int.sign 1 else Int.tdiv ((1 : Int) * 10) 100)
    ∧ mouse_scale 1 10 ≠ 0 :=
  (mouse_scaling (regBus REG_MOUSE_X 1) 0
      { lyra_kbd_init with mouse_speed_x := 10, mouse_speed_y := 10 } 1 0 rfl rfl
      (by decide) (by decide) (by decide) (by decide)).2 1 10 (by decide)

lemma process_power_button_toggle_eq (st : KbdState) :
    lyra_kbd_process_power_button st (!st.power_btn_pressed) =
      ({ st with power_btn_pressed := !st.power_btn_pressed },
       [Event.key KEY_POWER (!st.power_btn_pressed), Event.sync]) := by
  unfold lyra_kbd_process_power_button
  rw [if_pos (by cases st.power_btn_pressed <;> simp)]

lemma gated_fifo_power (bus : Bus) (c : Bool) (n0 : Nat) (st : KbdState) :
    (if c then lyra_kbd_process_fifo bus n0 st
     else ⟨st, [], n0, 0⟩).st.power_btn_pressed = st.power_btn_pressed := by
  cases c
  · rfl
  · exact process_fifo_aux_power bus FIFO_MAX_READ n0 st

lemma gated_fifo_interval (bus : Bus) (c : Bool) (n0 : Nat) (st : KbdState) :
    (if c then lyra_kbd_process_fifo bus n0 st
     else ⟨st, [], n0, 0⟩).st.poll_interval_ms = st.poll_interval_ms := by
  cases c
  · rfl
  · exact process_fifo_aux_interval bus FIFO_MAX_READ n0 st

lemma process_power_button_interval (st : KbdState) (p : Bool) :
    (lyra_kbd_process_power_button st p).1.poll_interval_ms = st.poll_interval_ms := by
  unfold lyra_kbd_process_power_button
  split <;> rfl

lemma gated_power_button_interval (c : Bool) (st : KbdState) :
    (if c then lyra_kbd_process_power_button st (!st.power_btn_pressed)
     else (st, [])).1.poll_interval_ms = st.poll_interval_ms := by
  cases c
  · rfl
  · exact process_power_button_interval st _

/-- Claim C5: a tick whose interrupt status has the power-button bit set
invokes the detector with the negation of the stored state, so the
stored `power_btn_pressed` flips and a KEY_POWER event at the new state
is emitted; two consecutive qualifying ticks therefore report the
toggled state and then toggle it back. -/
theorem power_button_toggle (bus1 bus2 : Bus) (n1 n2 : Nat) (st : KbdState) (s1 s2 : Nat)
    (hb1 : bus1 n1 REG_INT_STATUS = some s1) (hp1 : s1 &&& INT_STATUS_POWER_BTN ≠ 0)
    (hb2 : bus2 n2 REG_INT_STATUS = some s2) (hp2 : s2 &&& INT_STATUS_POWER_BTN ≠ 0) :
    (lyra_kbd_poll_work bus1 n1 st).st.power_btn_pressed = !st.power_btn_pressed
    ∧ Event.key KEY_POWER (!st.power_btn_pressed) ∈ (lyra_kbd_poll_work bus1 n1 st).events
    ∧ (lyra_kbd_poll_work bus2 n2 (lyra_kbd_poll_work bus1 n1 st).st).st.power_btn_pressed
        = st.power_btn_pressed
    ∧ Event.key KEY_POWER st.power_btn_pressed
        ∈ (lyra_kbd_poll_work bus2 n2 (lyra_kbd_poll_work bus1 n1 st).st).events := by
  have tick : ∀ (bus : Bus) (n : Nat) (st' : KbdState) (s : Nat),
      bus n REG_INT_STATUS = some s → s &&& INT_STATUS_POWER_BTN ≠ 0 →
      (lyra_kbd_poll_work bus n st').st.power_btn_pressed = !st'.power_btn_pressed
      ∧ Event.key KEY_POWER (!st'.power_btn_pressed) ∈ (lyra_kbd_poll_work bus n st').events := by
    intro bus n st' s hb hp
    have hp' : (s &&& INT_STATUS_POWER_BTN != 0) = true := by simpa [bne_iff_ne] using hp
    unfold lyra_kbd_poll_work
    rw [hb]
    dsimp only
    rw [if_pos hp', process_power_button_toggle_eq, gated_fifo_power]
    exact ⟨rfl, by simp [List.mem_append]⟩
  obtain ⟨h1st, h1mem⟩ := tick bus1 n1 st s1 hb1 hp1
  obtain ⟨h2st, h2mem⟩ := tick bus2 n2 _ s2 hb2 hp2
  rw [h1st] at h2st h2mem
  rw [Bool.not_not] at h2st h2mem
  exact ⟨h1st, h1mem, h2st, h2mem⟩

/-- Witness for C5: from the initial (released) state, two ticks on a
bus whose interrupt status is always 0x40 report pressed then released. -/
theorem power_button_toggle_witness :
    (lyra_kbd_poll_work (constBus 64) 0 lyra_kbd_init).st.power_btn_pressed
      = !lyra_kbd_init.power_btn_pressed
    ∧ Event.key KEY_POWER (!lyra_kbd_init.power_btn_pressed)
        ∈ (lyra_kbd_poll_work (constBus 64) 0 lyra_kbd_init).events
    ∧ (lyra_kbd_poll_work (constBus 64) 0
          (lyra_kbd_poll_work (constBus 64) 0 lyra_kbd_init).st).st.power_btn_pressed
        = lyra_kbd_init.power_btn_pressed
    ∧ Event.key KEY_POWER lyra_kbd_init.power_btn_pressed
        ∈ (lyra_kbd_poll_work (constBus 64) 0
            (lyra_kbd_poll_work (constBus 64) 0 lyra_kbd_init).st).events :=
  power_button_toggle (constBus 64) (constBus 64) 0 0 lyra_kbd_init 64 64
    rfl (by decide) rfl (by decide)

/-- Claim C6: if the initial interrupt-status read of a tick fails, the
tick does nothing — no events, no state change, no further register
read — yet still schedules the next tick at the configured interval;
and on every tick, failing or not, the next tick is scheduled at the
configured `poll_interval_ms`. -/
theorem scheduler_liveness (bus : Bus) (n : Nat) (st : KbdState) :
    (bus n REG_INT_STATUS = none →
      lyra_kbd_poll_work bus n st = ⟨st, [], n + 1, st.poll_interval_ms⟩)
    ∧ (lyra_kbd_poll_work bus n st).nextDelayMs = st.poll_interval_ms := by
  constructor
  · intro hb
    unfold lyra_kbd_poll_work
    rw [hb]
  · unfold lyra_kbd_poll_work
    cases hb : bus n REG_INT_STATUS with
    | none => rfl
    | some s =>
      dsimp only
      rw [gated_power_button_interval, gated_fifo_interval]

/-- Witness for C6: on a bus where every read fails, the tick is a no-op
that still schedules the next tick after `POLL_INTERVAL_MS`. -/
theorem scheduler_liveness_witness :
    lyra_kbd_poll_work failBus 0 lyra_kbd_init = ⟨lyra_kbd_init, [], 1, POLL_INTERVAL_MS⟩
    ∧ (lyra_kbd_poll_work failBus 0 lyra_kbd_init).nextDelayMs = POLL_INTERVAL_MS :=
  ⟨(scheduler_liveness failBus 0 lyra_kbd_init).1 rfl,
   (scheduler_liveness failBus 0 lyra_kbd_init).2⟩

/-- Claim C8: configuration stores are atomic on rejection: a parse
failure or out-of-range value (mouse speeds outside [10, 500], poll
interval outside [5, 100]) returns `-EINVAL` with the state unchanged,
while an in-range write stores exactly the written value and returns
`count`. -/
theorem config_atomicity (st : KbdState) (v : Int) (u : Nat) (cnt : Nat) :
    (mouse_speed_x_store st none cnt = (st, -EINVAL))
    ∧ (v < 10 ∨ 500 < v → mouse_speed_x_store st (some v) cnt = (st, -EINVAL))
    ∧ (10 ≤ v → v ≤ 500 →
        mouse_speed_x_store st (some v) cnt = ({ st with mouse_speed_x := v }, (cnt : Int)))
    ∧ (mouse_speed_y_store st none cnt = (st, -EINVAL))
    ∧ (v < 10 ∨ 500 < v → mouse_speed_y_store st (some v) cnt = (st, -EINVAL))
    ∧ (10 ≤ v → v ≤ 500 →
        mouse_speed_y_store st (some v) cnt = ({ st with mouse_speed_y := v }, (cnt : Int)))
    ∧ (poll_interval_store st none cnt = (st, -EINVAL))
    ∧ (u < 5 ∨ 100 < u → poll_interval_store st (some u) cnt = (st, -EINVAL))
    ∧ (5 ≤ u → u ≤ 100 →
        poll_interval_store st (some u) cnt = ({ st with poll_interval_ms := u }, (cnt : Int))) := by
  refine ⟨rfl, ?_, ?_, rfl, ?_, ?_, rfl, ?_, ?_⟩
  · intro h
    unfold mouse_speed_x_store
    dsimp only
    rw [if_pos h]
  · intro h1 h2
    unfold mouse_speed_x_store
    dsimp only
    rw [if_neg (by omega)]
  · intro h
    unfold mouse_speed_y_store
    dsimp only
    rw [if_pos h]
  · intro h1 h2
    unfold mouse_speed_y_store
    dsimp only
    rw [if_neg (by omega)]
  · intro h
    unfold poll_interval_store
    dsimp only
    rw [if_pos h]
  · intro h1 h2
    unfold poll_interval_store
    dsimp only
    rw [if_neg (by omega)]

/-- Witness for C8 at concrete inputs: 501 is rejected for mouse speed X
with the state retained, 250 is stored; 4 is rejected for the poll
interval, 50 is stored. -/
theorem config_atomicity_witness :
    mouse_speed_x_store lyra_kbd_init (some 501) 3 = (lyra_kbd_init, -EINVAL)
    ∧ mouse_speed_x_store lyra_kbd_init (some 250) 3 =
        ({ lyra_kbd_init with mouse_speed_x := 250 }, (3 : Int))
    ∧ poll_interval_store lyra_kbd_init (some 4) 2 = (lyra_kbd_init, -EINVAL)
    ∧ poll_interval_store lyra_kbd_init (some 50) 2 =
        ({ lyra_kbd_init with poll_interval_ms := 50 }, (2 : Int)) :=
  ⟨(config_atomicity lyra_kbd_init 501 4 3).2.1 (by decide),
   (config_atomicity lyra_kbd_init 250 50 3).2.2.1 (by decide) (by decide),
   (config_atomicity lyra_kbd_init 501 4 2).2.2.2.2.2.2.2.1 (by decide),
   (config_atomicity lyra_kbd_init 501 50 2).2.2.2.2.2.2.2.2 (by decide) (by decide)⟩

end Lyra
